import Mathlib

/-!
Shallow embedding of `src/qcoro/task.h` (QCoro's `Task<T>` coroutine core).

The C++ unit implements a single-owner, eagerly-started asynchronous task:
a promise base holding the rendezvous state (`mResumeAwaiter` atomic flag and
`mAwaitingCoroutine` continuation handle), a `TaskFinalSuspend` awaitable run
on the producer's completion path, a typed / void promise holding the result,
an awaiter bridging the consumer, and a move-only `Task` handle owning the
coroutine frame.

Coroutine handles are modelled as `Nat` frame identifiers; a null
`coroutine_handle<>` is `Option.none`.  Member functions on the promise become
explicit state-passing functions on `TaskPromiseBase`.  The atomic
`exchange(true, acq_rel)` becomes a pure read-then-set step; an interleaving of
the producer's completion path and the consumer's attachment is a trace of
events, each event being one party's whole (atomic-exchange-centred) step, which
is faithful because the exchange is the single synchronisation point between
the two sides.
-/

namespace QCoro

namespace detail

/-- The data members of `TaskPromiseBase` (task.h lines 189–194):
`mAwaitingCoroutine` is the handle of the coroutine co_awaiting this one
(default-constructed, i.e. null), and `mResumeAwaiter` is the atomic rendezvous
flag, initialised `false`. -/
structure TaskPromiseBase where
  mAwaitingCoroutine : Option Nat
  mResumeAwaiter : Bool
deriving DecidableEq, Repr

/-- A freshly constructed promise: null awaiting handle, flag `false`. -/
def TaskPromiseBase.init : TaskPromiseBase := ⟨none, false⟩

/-- The atomic `mResumeAwaiter.exchange(true, std::memory_order_acq_rel)`:
returns the previous value and the state with the flag set. -/
def TaskPromiseBase.exchangeResumeAwaiter (s : TaskPromiseBase) :
    Bool × TaskPromiseBase :=
  (s.mResumeAwaiter, { s with mResumeAwaiter := true })

/-- `TaskFinalSuspend::await_suspend` (task.h lines 52–59), the producer's
completion path: exchange the flag to `true`; if the previous value was `true`,
resume `promise.mAwaitingCoroutine`.  The returned list records the
continuations resumed by this step (empty or a singleton). -/
def TaskFinalSuspend.await_suspend (s : TaskPromiseBase) :
    TaskPromiseBase × List (Option Nat) :=
  let (old, s') := s.exchangeResumeAwaiter
  if old then (s', [s'.mAwaitingCoroutine]) else (s', [])

/-- `TaskFinalSuspend::await_ready` (task.h lines 40–42): always `false`, the
just-finished coroutine is always suspended at its final suspend point. -/
def TaskFinalSuspend.await_ready : Bool := false

/-- `TaskPromiseBase::setAwaitingCoroutine` (task.h lines 184–187), the
consumer's attachment: first store the awaiting coroutine's handle into
`mAwaitingCoroutine`, then exchange the flag to `true`; return
`!previous` (whether the awaiting coroutine should suspend). -/
def TaskPromiseBase.setAwaitingCoroutine (s : TaskPromiseBase)
    (awaitingCoroutine : Nat) : TaskPromiseBase × Bool :=
  let s1 := { s with mAwaitingCoroutine := some awaitingCoroutine }
  let (old, s2) := s1.exchangeResumeAwaiter
  (s2, !old)

/-- The state of `TaskPromise<T>::mValue`
(`std::variant<std::monostate, T, std::exception_ptr>`, task.h line 233),
with the exception payload type `E` kept abstract (it is opaque to the core). -/
inductive TaskValue (T E : Type) where
  | monostate : TaskValue T E
  | value (v : T) : TaskValue T E
  | exn (e : E) : TaskValue T E
deriving Repr

/-- What `TaskPromise<T>::result()` can do: return a value, rethrow the stored
exception, or — when `mValue` still holds `std::monostate` — throw
`std::bad_variant_access` from `std::get<T>`. -/
inductive ReadError (E : Type) where
  | rethrown (e : E) : ReadError E
  | badVariantAccess : ReadError E
deriving Repr

/-- `TaskPromise<T>::return_value` (task.h lines 211–213): store the
co_returned value into `mValue`. -/
def TaskPromise.return_value {T E : Type} (v : T) (_mValue : TaskValue T E) :
    TaskValue T E :=
  .value v

/-- `TaskPromise<T>::unhandled_exception` (task.h lines 207–209): store the
current exception into `mValue`. -/
def TaskPromise.unhandled_exception {T E : Type} (e : E) (_mValue : TaskValue T E) :
    TaskValue T E :=
  .exn e

/-- `TaskPromise<T>::result()` (task.h lines 215–221): if `mValue` holds an
`std::exception_ptr`, rethrow it; otherwise `std::get<T>(mValue)`, which
returns the stored value or throws `std::bad_variant_access` on `monostate`. -/
def TaskPromise.result {T E : Type} : TaskValue T E → Except (ReadError E) T
  | .exn e => .error (.rethrown e)
  | .value v => .ok v
  | .monostate => .error .badVariantAccess

/-- `std::holds_alternative<T>(mValue)`: whether a value is stored. -/
def TaskValue.holdsValue {T E : Type} : TaskValue T E → Bool
  | .value _ => true
  | _ => false

/-- `std::holds_alternative<std::exception_ptr>(mValue)`: whether an exception
is stored. -/
def TaskValue.holdsException {T E : Type} : TaskValue T E → Bool
  | .exn _ => true
  | _ => false

/-- The state of `TaskPromise<void>::mException` (task.h line 265): a possibly
null `std::exception_ptr`. -/
def TaskPromiseVoid.unhandled_exception {E : Type} (e : E) (_mException : Option E) :
    Option E :=
  some e

/-- `TaskPromise<void>::return_void` (task.h line 249): does nothing. -/
def TaskPromiseVoid.return_void {E : Type} (mException : Option E) : Option E :=
  mException

/-- `TaskPromise<void>::result()` (task.h lines 257–261): rethrow `mException`
if non-null, otherwise return nothing. -/
def TaskPromiseVoid.result {E : Type} : Option E → Except E Unit
  | some e => .error e
  | none => .ok ()

/-- The void promise's state viewed as a typed promise's variant state, for
comparing the two `result()` paths: no stored exception corresponds to a
stored unit value, a stored exception to a stored exception. -/
def TaskPromiseVoid.toTyped {E : Type} : Option E → TaskValue Unit E
  | none => .value ()
  | some e => .exn e

/-- One scheduler-visible step in the completion/attachment race.  The
consumer's attachment (`setAwaitingCoroutine`) is split into its two memory
accesses — the plain store of the continuation handle and the atomic exchange
— so that traces range over every interleaving the code allows.  The
producer's completion path (`TaskFinalSuspend::await_suspend`) stays a single
step: its conditional resume runs only when its exchange observed `true`, and
then the single consumer has already executed both of its accesses, so no
consumer access can fall between the producer's exchange and its resume. -/
inductive Event where
  | producerComplete : Event
  | consumerStore (h : Nat) : Event
  | consumerExchange : Event
deriving DecidableEq, Repr

/-- Whether an event is the producer's completion step. -/
def Event.isProducer : Event → Bool
  | .producerComplete => true
  | .consumerStore _ => false
  | .consumerExchange => false

/-- Whether an event belongs to the consumer's attachment. -/
def Event.isConsumer : Event → Bool
  | .producerComplete => false
  | .consumerStore _ => true
  | .consumerExchange => true

/-- Run one event on the promise state, returning the continuations resumed by
that step.  The producer resumes `mAwaitingCoroutine` when its exchange saw
`true`.  The consumer's store resumes nothing; its exchange, when it saw
`true` (`setAwaitingCoroutine` returns `false`), means the awaiting coroutine
does not suspend, i.e. it proceeds — is "resumed" — synchronously; when it saw
`false` the consumer suspends and nothing is resumed yet. -/
def step (s : TaskPromiseBase) : Event → TaskPromiseBase × List (Option Nat)
  | .producerComplete => TaskFinalSuspend.await_suspend s
  | .consumerStore h => ({ s with mAwaitingCoroutine := some h }, [])
  | .consumerExchange =>
      let (old, s') := s.exchangeResumeAwaiter
      (s', if old then [s'.mAwaitingCoroutine] else [])

/-- Run a trace of events from a state, collecting every resumed continuation
in order. -/
def runTrace (s : TaskPromiseBase) : List Event → TaskPromiseBase × List (Option Nat)
  | [] => (s, [])
  | e :: es =>
      let (s', r) := step s e
      let (s'', rs) := runTrace s' es
      (s'', r ++ rs)

/-- Total number of continuation resumptions along a trace started from a
freshly constructed promise. -/
def resumeCount (tr : List Event) : Nat :=
  (runTrace TaskPromiseBase.init tr).2.length

/-- `std::suspend_never`, the awaitable returned by
`TaskPromiseBase::initial_suspend`: its `await_ready` is constexpr `true`, so
co_awaiting it never suspends. -/
structure suspend_never where
deriving Repr

/-- `std::suspend_never::await_ready()`: always `true`. -/
def suspend_never.await_ready (_ : suspend_never) : Bool := true

/-- `TaskPromiseBase::initial_suspend` (task.h line 120): returns
`std::suspend_never`, so the coroutine is never suspended at its start. -/
def TaskPromiseBase.initial_suspend (_ : TaskPromiseBase) : suspend_never := ⟨⟩

/-- The compiler-generated start of a coroutine co_awaits
`promise.initial_suspend()` and suspends before running any user code exactly
when that awaitable's `await_ready()` is `false`. -/
def coroutineStartSuspends (p : TaskPromiseBase) : Bool :=
  !(p.initial_suspend.await_ready)

/-- The data member of `TaskAwaiterBase` (task.h line 324): the handle of the
coroutine being co_awaited, possibly null. -/
structure TaskAwaiterBase where
  mAwaitedCoroutine : Option Nat
deriving DecidableEq, Repr

/-- `TaskAwaiterBase::await_ready` (task.h lines 274–276):
`!mAwaitedCoroutine || mAwaitedCoroutine.done()`.  Whether a frame is `done()`
(suspended at its final suspend point) is execution state, passed in as
`done`. -/
def TaskAwaiterBase.await_ready (done : Nat → Bool) (aw : TaskAwaiterBase) :
    Bool :=
  match aw.mAwaitedCoroutine with
  | none => true
  | some c => done c

/-- `TaskAwaiterBase::await_suspend` (task.h lines 310–313): resume the awaited
coroutine (`mAwaitedCoroutine.resume()`, which drives the awaited computation
and is modelled as the separate producer-completion event of a trace), then
call `setAwaitingCoroutine` on its promise and return its result. -/
def TaskAwaiterBase.await_suspend (_aw : TaskAwaiterBase) (s : TaskPromiseBase)
    (awaitingCoroutine : Nat) : TaskPromiseBase × Bool :=
  s.setAwaitingCoroutine awaitingCoroutine

/-- `TaskAwaiter::await_resume` (task.h lines 425–428):
`Q_ASSERT(mAwaitedCoroutine != nullptr)` then
`mAwaitedCoroutine.promise().result()`.  The assertion failure on a null
handle is `none`; `promiseOf` maps a frame to its promise's `mValue`. -/
def TaskAwaiter.await_resume {T E : Type} (promiseOf : Nat → TaskValue T E)
    (aw : TaskAwaiterBase) : Option (Except (ReadError E) T) :=
  match aw.mAwaitedCoroutine with
  | none => none
  | some c => some (TaskPromise.result (promiseOf c))

/-- The compiler-generated protocol for `co_await`: if the awaiter's
`await_ready()` is `true`, proceed without suspending and without touching the
rendezvous state; otherwise run `await_suspend`, which performs the one atomic
exchange of the handshake.  Returns (did the consumer suspend, promise state
after, number of atomic exchanges performed). -/
def coAwaitProtocol (done : Nat → Bool) (aw : TaskAwaiterBase)
    (s : TaskPromiseBase) (awaitingCoroutine : Nat) :
    Bool × TaskPromiseBase × Nat :=
  if aw.await_ready done then
    (false, s, 0)
  else
    let (s', shouldSuspend) := aw.await_suspend s awaitingCoroutine
    (shouldSuspend, s', 1)

end detail

/-- The data member of `Task<T>` (task.h line 459): the handle of the coroutine
this task owns, null when default-constructed or moved-from. -/
structure Task where
  mCoroutine : Option Nat
deriving DecidableEq, Repr

/-- `explicit Task() noexcept = default` (task.h line 353): an empty task. -/
def Task.empty : Task := ⟨none⟩

/-- `Task(Task &&other)` (task.h lines 369–372): take over `other.mCoroutine`
and null out the source.  Returns (the new task, `other` afterwards). -/
def Task.moveConstruct (other : Task) : Task × Task :=
  (⟨other.mCoroutine⟩, ⟨none⟩)

/-- `~Task()` (task.h lines 392–396): if bound, destroy the coroutine frame.
Returns the list of frames destroyed. -/
def Task.destructor (t : Task) : List Nat :=
  match t.mCoroutine with
  | some c => [c]
  | none => []

/-- `Task &operator=(Task &&other)` (task.h lines 375–383) for distinct
objects: destroy the currently owned frame if any, take over
`other.mCoroutine`, null out `other`.  Returns (the target afterwards, `other`
afterwards, frames destroyed in order). -/
def Task.moveAssign (target other : Task) : Task × Task × List Nat :=
  let destroyed :=
    match target.mCoroutine with
    | some c => [c]
    | none => []
  (⟨other.mCoroutine⟩, ⟨none⟩, destroyed)

/-- `t = std::move(t)` — `operator=(Task&&)` run with `other` aliasing `*this`:
`mCoroutine.destroy()` destroys the owned frame (the handle value itself is
left in place, now dangling), `mCoroutine = other.mCoroutine` copies that same
value onto itself, and `other.mCoroutine = nullptr` nulls the one shared
member.  Returns (the task afterwards, frames destroyed). -/
def Task.moveAssignSelf (t : Task) : Task × List Nat :=
  let destroyed :=
    match t.mCoroutine with
    | some c => [c]
    | none => []
  let self : Task := ⟨t.mCoroutine⟩
  let self : Task := { self with mCoroutine := none }
  (self, destroyed)

/-- `Task::isReady` (task.h lines 403–405):
`!mCoroutine || mCoroutine.done()`. -/
def Task.isReady (done : Nat → Bool) (t : Task) : Bool :=
  match t.mCoroutine with
  | none => true
  | some c => done c

/-- `Task::operator co_await` (task.h lines 414–431): builds a `TaskAwaiter`
over this task's `mCoroutine` handle. -/
def Task.coAwait (t : Task) : detail.TaskAwaiterBase :=
  ⟨t.mCoroutine⟩

end QCoro

namespace QCoro

namespace detail

/-- Every event is either a producer step or a consumer step, so a trace's
length is the sum of the lengths of the two filtered sub-traces. -/
theorem length_eq_consumer_add_producer (tr : List Event) :
    tr.length =
      (tr.filter Event.isConsumer).length + (tr.filter Event.isProducer).length := by
  induction tr with
  | nil => rfl
  | cons e es ih =>
      cases e <;>
        simp [Event.isConsumer, Event.isProducer, List.filter, ih] <;> omega

/-- Running the consumer's two sub-steps back-to-back is exactly
`setAwaitingCoroutine`: same final promise state, and the consumer proceeds
synchronously exactly when `setAwaitingCoroutine` returns `false`. -/
theorem attach_decomposition (s : TaskPromiseBase) (h : Nat) :
    runTrace s [Event.consumerStore h, Event.consumerExchange] =
      ((s.setAwaitingCoroutine h).1,
        if (s.setAwaitingCoroutine h).2 then [] else [some h]) := by
  cases hb : s.mResumeAwaiter <;>
    simp [runTrace, step, TaskPromiseBase.setAwaitingCoroutine,
      TaskPromiseBase.exchangeResumeAwaiter, hb]

end detail

end QCoro

namespace QCoro

namespace detail

/-- C1: for a computation with exactly one attaching consumer, every
interleaving of the producer's completion step with the consumer's two
attachment sub-steps (any trace whose consumer sub-trace is store-then-exchange
for handle `h` and whose producer sub-trace is the single completion step)
resumes the consumer's continuation exactly once; and a computation whose
producer completes with no consumer ever attaching resumes nothing at all. -/
theorem rendezvous_exactly_once :
    (∀ (h : Nat) (tr : List Event),
        tr.filter Event.isConsumer =
          [Event.consumerStore h, Event.consumerExchange] →
        tr.filter Event.isProducer = [Event.producerComplete] →
        (runTrace TaskPromiseBase.init tr).2 = [some h]) ∧
    (∀ tr : List Event, tr.filter Event.isConsumer = [] →
        (tr.filter Event.isProducer).length ≤ 1 →
        (runTrace TaskPromiseBase.init tr).2 = []) := by
  constructor
  · intro h tr hc hp
    have hlen : tr.length = 3 := by
      rw [length_eq_consumer_add_producer, hc, hp]
      rfl
    match tr, hlen with
    | [a, b, c], _ =>
        cases a <;> cases b <;> cases c <;>
          simp_all [List.filter, Event.isConsumer, Event.isProducer,
            runTrace, step, TaskFinalSuspend.await_suspend,
            TaskPromiseBase.exchangeResumeAwaiter, TaskPromiseBase.init]
  · intro tr hc hp
    have hlen : tr.length ≤ 1 := by
      rw [length_eq_consumer_add_producer, hc]
      simpa using hp
    match tr, hlen with
    | [], _ => rfl
    | [a], _ =>
        cases a <;>
          simp_all [List.filter, Event.isConsumer, Event.isProducer,
            runTrace, step, TaskFinalSuspend.await_suspend,
            TaskPromiseBase.exchangeResumeAwaiter, TaskPromiseBase.init]

/-- Witness for C1: in the interleaving where the consumer stores its handle,
the producer then completes, and the consumer finally exchanges, the
continuation is resumed exactly once; and the producer-only trace resumes
nothing. -/
theorem rendezvous_exactly_once_witness :
    (runTrace TaskPromiseBase.init
      [Event.consumerStore 0, Event.producerComplete, Event.consumerExchange]).2 =
        [some 0] ∧
    (runTrace TaskPromiseBase.init [Event.producerComplete]).2 = [] :=
  ⟨rendezvous_exactly_once.1 0
      [Event.consumerStore 0, Event.producerComplete, Event.consumerExchange]
      (by decide) (by decide),
   rendezvous_exactly_once.2 [Event.producerComplete] (by decide) (by decide)⟩

/-- C2: the producer's completion path (`TaskFinalSuspend::await_suspend`)
leaves the rendezvous flag `true`, resumes exactly the stored continuation iff
its exchange observed the previous flag value `true`, and does nothing further
when it observed `false`. -/
theorem finalSuspend_completion_path (s : TaskPromiseBase) :
    (TaskFinalSuspend.await_suspend s).1.mResumeAwaiter = true ∧
    (TaskFinalSuspend.await_suspend s).1.mAwaitingCoroutine = s.mAwaitingCoroutine ∧
    ((TaskFinalSuspend.await_suspend s).2 = [s.mAwaitingCoroutine] ↔
      s.mResumeAwaiter = true) ∧
    (s.mResumeAwaiter = false → (TaskFinalSuspend.await_suspend s).2 = []) := by
  cases h : s.mResumeAwaiter <;>
    simp [TaskFinalSuspend.await_suspend, TaskPromiseBase.exchangeResumeAwaiter, h]

/-- Witness for C2 at the freshly-initialised promise: the producer arriving
first resumes nothing. -/
theorem finalSuspend_completion_path_witness :
    (TaskFinalSuspend.await_suspend TaskPromiseBase.init).2 = [] :=
  (finalSuspend_completion_path TaskPromiseBase.init).2.2.2 rfl

/-- C3: the consumer's attachment (`setAwaitingCoroutine`) stores the awaiting
coroutine's handle into the continuation link, then exchanges the rendezvous
flag to `true`; it returns should-suspend `true` exactly when the exchange
observed `false`, and `false` (proceed synchronously) when it observed `true`. -/
theorem setAwaitingCoroutine_attach (s : TaskPromiseBase) (h : Nat) :
    (s.setAwaitingCoroutine h).1.mAwaitingCoroutine = some h ∧
    (s.setAwaitingCoroutine h).1.mResumeAwaiter = true ∧
    ((s.setAwaitingCoroutine h).2 = true ↔ s.mResumeAwaiter = false) ∧
    ((s.setAwaitingCoroutine h).2 = false ↔ s.mResumeAwaiter = true) := by
  cases hb : s.mResumeAwaiter <;>
    simp [TaskPromiseBase.setAwaitingCoroutine,
      TaskPromiseBase.exchangeResumeAwaiter, hb]

/-- Witness for C3 at the freshly-initialised promise and handle 7: the
consumer arriving first stores its handle and is told to suspend. -/
theorem setAwaitingCoroutine_attach_witness :
    (TaskPromiseBase.init.setAwaitingCoroutine 7).1.mAwaitingCoroutine = some 7 ∧
    (TaskPromiseBase.init.setAwaitingCoroutine 7).2 = true :=
  ⟨(setAwaitingCoroutine_attach TaskPromiseBase.init 7).1,
   (setAwaitingCoroutine_attach TaskPromiseBase.init 7).2.2.1.mpr rfl⟩

/-- C4: result round-trip — storing a value `v` then reading yields exactly
`v`; storing an exception `e` then reading re-raises a failure carrying `e`;
and the variant never holds a value and an exception at the same time. -/
theorem result_roundtrip (T E : Type) (v : T) (e : E) (s : TaskValue T E) :
    TaskPromise.result (TaskPromise.return_value v s) = Except.ok v ∧
    TaskPromise.result (TaskPromise.unhandled_exception e s) =
      Except.error (ReadError.rethrown e) ∧
    ¬(TaskValue.holdsValue s = true ∧ TaskValue.holdsException s = true) := by
  refine ⟨rfl, rfl, ?_⟩
  cases s <;> simp [TaskValue.holdsValue, TaskValue.holdsException]

/-- Witness for C4 at `T = E = Nat`, `v = 5`, `e = 9`, empty variant. -/
theorem result_roundtrip_witness :
    TaskPromise.result
      (TaskPromise.return_value 5 (TaskValue.monostate : TaskValue Nat Nat)) =
      Except.ok 5 :=
  (result_roundtrip Nat Nat 5 9 TaskValue.monostate).1

/-- C8: the void specialization's `result()` returns nothing on normal
completion and re-raises the stored exception otherwise, and through the
`toTyped` correspondence it behaves exactly as the typed specialization's
failure path (rethrowing the same payload). -/
theorem void_result_matches_typed (E : Type) (e : E) (s : Option E) :
    TaskPromiseVoid.result (TaskPromiseVoid.unhandled_exception e s) =
      Except.error e ∧
    TaskPromiseVoid.result (TaskPromiseVoid.return_void (none : Option E)) =
      Except.ok () ∧
    TaskPromise.result (TaskPromiseVoid.toTyped s) =
      (TaskPromiseVoid.result s).mapError ReadError.rethrown := by
  refine ⟨rfl, rfl, ?_⟩
  cases s <;> rfl

/-- Witness for C8 at `E = Nat`, `e = 3`, no stored exception. -/
theorem void_result_matches_typed_witness :
    TaskPromiseVoid.result (TaskPromiseVoid.unhandled_exception 3 (none : Option Nat)) =
      Except.error 3 :=
  (void_result_matches_typed Nat 3 none).1

end detail

/-- C5: ownership — moving from a task leaves the source unbound so its
destructor tears nothing down; the destructor of the handle that owns the
frame destroys it exactly once; move-assignment destroys exactly the target's
previously owned frame and transfers ownership, nulling the source; after a
move the frame is never owned by both handles (copy construction/assignment
are deleted in the source, lines 364–366, so no duplicating operation exists
in the model). -/
theorem task_ownership (t target other : Task) (c : Nat) :
    (Task.moveConstruct t).2.mCoroutine = none ∧
    Task.destructor (Task.moveConstruct t).2 = [] ∧
    (Task.moveConstruct t).1.mCoroutine = t.mCoroutine ∧
    (t.mCoroutine = some c → Task.destructor (Task.moveConstruct t).1 = [c]) ∧
    (Task.moveAssign target other).2.2 = Task.destructor target ∧
    (Task.moveAssign target other).1.mCoroutine = other.mCoroutine ∧
    (Task.moveAssign target other).2.1.mCoroutine = none ∧
    ¬((Task.moveConstruct t).1.mCoroutine = some c ∧
      (Task.moveConstruct t).2.mCoroutine = some c) := by
  refine ⟨rfl, rfl, rfl, ?_, rfl, rfl, rfl, ?_⟩
  · intro h
    simp [Task.moveConstruct, Task.destructor, h]
  · rintro ⟨-, h2⟩
    simp [Task.moveConstruct] at h2

/-- Witness for C5: a task bound to frame 3, move-constructed from; the new
handle's destructor destroys exactly frame 3. -/
theorem task_ownership_witness :
    Task.destructor (Task.moveConstruct ⟨some 3⟩).1 = [3] :=
  (task_ownership ⟨some 3⟩ Task.empty Task.empty 3).2.2.2.1 rfl

/-- C6: `Task::isReady` (and the awaiter's `await_ready` pre-check, which
coincides with it) is `true` exactly when the handle holds no coroutine or the
held coroutine is done; and when the pre-check reports ready, the co_await
protocol performs no handshake (zero atomic exchanges, promise state
untouched) and the consumer does not suspend. -/
theorem isReady_skips_handshake (done : Nat → Bool) (t : Task)
    (s : detail.TaskPromiseBase) (awaiting : Nat) :
    (Task.isReady done t = true ↔
      t.mCoroutine = none ∨ ∃ c, t.mCoroutine = some c ∧ done c = true) ∧
    detail.TaskAwaiterBase.await_ready done t.coAwait = Task.isReady done t ∧
    (detail.TaskAwaiterBase.await_ready done t.coAwait = true →
      detail.coAwaitProtocol done t.coAwait s awaiting = (false, s, 0)) := by
  refine ⟨?_, ?_, ?_⟩
  · cases h : t.mCoroutine <;>
      simp [Task.isReady, h]
  · cases h : t.mCoroutine <;>
      simp [Task.isReady, Task.coAwait, detail.TaskAwaiterBase.await_ready, h]
  · intro h
    simp [detail.coAwaitProtocol, h]

/-- Witness for C6: an unbound task is ready and the protocol does nothing. -/
theorem isReady_skips_handshake_witness :
    detail.coAwaitProtocol (fun _ => false) Task.empty.coAwait
      detail.TaskPromiseBase.init 0 = (false, detail.TaskPromiseBase.init, 0) :=
  (isReady_skips_handshake (fun _ => false) Task.empty
    detail.TaskPromiseBase.init 0).2.2 rfl

/-- C7: `initial_suspend` returns `std::suspend_never`, whose `await_ready` is
`true`, so the coroutine is never suspended at its start: user code runs the
instant the coroutine (and hence its Task handle) is constructed, without
being awaited first. -/
theorem initial_suspend_never_suspends (p : detail.TaskPromiseBase) :
    (p.initial_suspend).await_ready = true ∧
    detail.coroutineStartSuspends p = false :=
  ⟨rfl, rfl⟩

/-- C9: for a default-constructed task, and for any moved-from task, the
awaiter obtained from `operator co_await` reports ready even though there is
no coroutine, and `await_resume` fails its `Q_ASSERT` (modelled `none`) — the
absent computation is reported ready yet has no obtainable result. -/
theorem unbound_task_ready_without_result (T E : Type)
    (promiseOf : Nat → detail.TaskValue T E) (done : Nat → Bool) (u : Task) :
    detail.TaskAwaiterBase.await_ready done Task.empty.coAwait = true ∧
    detail.TaskAwaiter.await_resume promiseOf Task.empty.coAwait = none ∧
    detail.TaskAwaiterBase.await_ready done (Task.moveConstruct u).2.coAwait = true ∧
    detail.TaskAwaiter.await_resume promiseOf (Task.moveConstruct u).2.coAwait = none :=
  ⟨rfl, rfl, rfl, rfl⟩

/-- C10: move-assigning a bound task into itself destroys the owned frame and
leaves the handle unbound — the computation and its result are lost. -/
theorem self_move_assign_destroys (t : Task) (c : Nat)
    (h : t.mCoroutine = some c) :
    (Task.moveAssignSelf t).1.mCoroutine = none ∧
    (Task.moveAssignSelf t).2 = [c] := by
  simp [Task.moveAssignSelf, h]

/-- Witness for C10: self-assigning a task bound to frame 4 destroys frame 4
and unbinds the handle. -/
theorem self_move_assign_destroys_witness :
    (Task.moveAssignSelf ⟨some 4⟩).1.mCoroutine = none ∧
    (Task.moveAssignSelf ⟨some 4⟩).2 = [4] :=
  self_move_assign_destroys ⟨some 4⟩ 4 rfl

end QCoro
